import Mathlib

/-!
Verification of the survey-submission data model (`src/models.py`).

The Python source defines two pydantic models, `SurveySubmission` and
`StoredSurveyRecord`, a PII-hashing helper `hash_pii`, and the
transformation `StoredSurveyRecord.from_submission`.  This file gives a
shallow embedding of those definitions and of the pydantic-v1 validation
semantics they rely on (type coercion, field constraints, custom
validators, per-field error aggregation), together with a faithful
executable SHA-256 over `Nat`, and proves properties of the embedding.
-/

namespace Case4

/-! ## SHA-256 (executable, over `Nat` with explicit `% 2^32`)

`hashlib.sha256(...).hexdigest()` from the source is embedded as a direct
implementation of FIPS 180-4 SHA-256.  All words are naturals kept below
`2^32`; message input is a list of bytes (naturals below 256). -/

/-- Right-rotate a 32-bit word (a `Nat` below `2^32`) by `n` bits. -/
def rotr32 (n x : Nat) : Nat :=
  (x >>> n) ||| ((x <<< (32 - n)) % 4294967296)

/-- The 64 SHA-256 round constants. -/
def sha256K : List Nat :=
  [1116352408, 1899447441, 3049323471, 3921009573, 961987163,
   1508970993, 2453635748, 2870763221, 3624381080, 310598401,
   607225278, 1426881987, 1925078388, 2162078206, 2614888103,
   3248222580, 3835390401, 4022224774, 264347078, 604807628,
   770255983, 1249150122, 1555081692, 1996064986, 2554220882,
   2821834349, 2952996808, 3210313671, 3336571891, 3584528711,
   113926993, 338241895, 666307205, 773529912, 1294757372,
   1396182291, 1695183700, 1986661051, 2177026350, 2456956037,
   2730485921, 2820302411, 3259730800, 3345764771, 3516065817,
   3600352804, 4094571909, 275423344, 430227734, 506948616,
   659060556, 883997877, 958139571, 1322822218, 1537002063,
   1747873779, 1955562222, 2024104815, 2227730452, 2361852424,
   2428436474, 2756734187, 3204031479, 3329325298]

/-- The SHA-256 initial hash state. -/
def sha256Init : List Nat :=
  [1779033703, 3144134277, 1013904242, 2773480762, 1359893119,
   2600822924, 528734635, 1541459225]

/-- Big-endian byte decomposition of `n` into `k` bytes. -/
def beBytes (k n : Nat) : List Nat :=
  (List.range k).map (fun i => (n >>> (8 * (k - 1 - i))) &&& 255)

/-- SHA-256 padding: append `0x80`, zero bytes to 56 mod 64, and the
bit length as 8 big-endian bytes. -/
def sha256Pad (msg : List Nat) : List Nat :=
  let z := (119 - msg.length % 64) % 64
  msg ++ [0x80] ++ List.replicate z 0 ++ beBytes 8 (8 * msg.length)

/-- Group a byte list (whose length is a multiple of 4) into 32-bit
big-endian words. -/
def bytesToWords (bs : List Nat) : List Nat :=
  (List.range (bs.length / 4)).map (fun i =>
    ((bs.getD (4 * i) 0) <<< 24) ||| ((bs.getD (4 * i + 1) 0) <<< 16) |||
    ((bs.getD (4 * i + 2) 0) <<< 8) ||| (bs.getD (4 * i + 3) 0))

/-- Extend 16 message-schedule words to 64. -/
def sha256Schedule (w16 : List Nat) : List Nat :=
  (List.range 48).foldl (fun w j =>
    let i := j + 16
    let x15 := w.getD (i - 15) 0
    let x2 := w.getD (i - 2) 0
    let s0 := (rotr32 7 x15) ^^^ (rotr32 18 x15) ^^^ (x15 >>> 3)
    let s1 := (rotr32 17 x2) ^^^ (rotr32 19 x2) ^^^ (x2 >>> 10)
    w ++ [(w.getD (i - 16) 0 + s0 + w.getD (i - 7) 0 + s1) % 4294967296]) w16

/-- One SHA-256 round on the working state `[a,b,c,d,e,f,g,h]`. -/
def sha256Round (w : List Nat) (st : List Nat) (i : Nat) : List Nat :=
  let a := st.getD 0 0
  let b := st.getD 1 0
  let c := st.getD 2 0
  let d := st.getD 3 0
  let e := st.getD 4 0
  let f := st.getD 5 0
  let g := st.getD 6 0
  let h := st.getD 7 0
  let s1 := (rotr32 6 e) ^^^ (rotr32 11 e) ^^^ (rotr32 25 e)
  let ch := (e &&& f) ^^^ ((e ^^^ 4294967295) &&& g)
  let t1 := (h + s1 + ch + sha256K.getD i 0 + w.getD i 0) % 4294967296
  let s0 := (rotr32 2 a) ^^^ (rotr32 13 a) ^^^ (rotr32 22 a)
  let maj := (a &&& b) ^^^ (a &&& c) ^^^ (b &&& c)
  let t2 := (s0 + maj) % 4294967296
  [(t1 + t2) % 4294967296, a, b, c, (d + t1) % 4294967296, e, f, g]

/-- Compress one 16-word block into the hash state. -/
def sha256Compress (hs : List Nat) (block : List Nat) : List Nat :=
  let w := sha256Schedule block
  let st := (List.range 64).foldl (sha256Round w) hs
  List.zipWith (fun x y => (x + y) % 4294967296) hs st

/-- Process `fuel` 16-word blocks from `ws`, folding them into the state. -/
def sha256Blocks : Nat → List Nat → List Nat → List Nat
  | 0, hs, _ => hs
  | fuel + 1, hs, ws => sha256Blocks fuel (sha256Compress hs (ws.take 16)) (ws.drop 16)

/-- SHA-256 digest (32 bytes) of a byte list. -/
def sha256Bytes (msg : List Nat) : List Nat :=
  let ws := bytesToWords (sha256Pad msg)
  let hs := sha256Blocks (ws.length / 16) sha256Init ws
  hs.foldr (fun w acc => beBytes 4 w ++ acc) []

/-- One hex digit, lowercase, for `n < 16`. -/
def hexChar (n : Nat) : Char :=
  Char.ofNat (if n < 10 then 48 + n else 87 + n)

/-- Lowercase hex encoding of a byte list, two digits per byte. -/
def hexOfBytes (bs : List Nat) : String :=
  String.mk (bs.foldr (fun b acc => hexChar (b / 16) :: hexChar (b % 16) :: acc) [])

/-- UTF-8 encoding of a single character (Python `str.encode('utf-8')`). -/
def utf8Char (c : Char) : List Nat :=
  let n := c.toNat
  if n < 0x80 then [n]
  else if n < 0x800 then
    [0xC0 ||| (n >>> 6), 0x80 ||| (n &&& 0x3F)]
  else if n < 0x10000 then
    [0xE0 ||| (n >>> 12), 0x80 ||| ((n >>> 6) &&& 0x3F), 0x80 ||| (n &&& 0x3F)]
  else
    [0xF0 ||| (n >>> 18), 0x80 ||| ((n >>> 12) &&& 0x3F),
     0x80 ||| ((n >>> 6) &&& 0x3F), 0x80 ||| (n &&& 0x3F)]

/-- UTF-8 encoding of a string, as a byte list. -/
def utf8Bytes (s : String) : List Nat :=
  s.data.foldr (fun c acc => utf8Char c ++ acc) []

/-- `hashlib.sha256(s.encode('utf-8')).hexdigest()`: the 64-character
lowercase hex SHA-256 digest of the UTF-8 bytes of `s`. -/
def sha256Hex (s : String) : String :=
  hexOfBytes (sha256Bytes (utf8Bytes s))

/-! ## Python / pydantic-v1 value model

Raw request fields are Python values.  The claims only exercise `None`,
booleans, integers and strings, so the value universe carries exactly
those.  A missing field is `Option.none` at the `RawInput` level;
`Val.vNone` is Python's `None`. -/

/-- A raw Python value handed to the pydantic model. -/
inductive Val where
  | vNone : Val
  | vBool : Bool → Val
  | vInt : Int → Val
  | vStr : String → Val
deriving DecidableEq, Repr

/-- Python `str(int)`: decimal representation, with a leading `-` when
negative. -/
def pyStrOfInt (n : Int) : String := toString n

/-- pydantic-v1 `str_validator`: strings pass through, numbers (including
`bool`, a Python `int` subclass) are converted with `str(...)`, `None` is
rejected. -/
def pyStr : Val → Except String String
  | .vStr s => .ok s
  | .vBool b => .ok (if b then "True" else "False")
  | .vInt n => .ok (pyStrOfInt n)
  | .vNone => .error "str type expected"

/-- The characters Python's `str.strip()` removes (ASCII whitespace; the
claims exercise no non-ASCII whitespace). -/
def isPyWs (c : Char) : Bool :=
  c = ' ' ∨ c = '\t' ∨ c = '\n' ∨ c = '\r' ∨ c = '\x0b' ∨ c = '\x0c'

/-- `str.strip()` on the character list: drop trailing whitespace (via
reverse), then leading whitespace. -/
def pyStripList (l : List Char) : List Char :=
  ((l.reverse.dropWhile isPyWs).reverse).dropWhile isPyWs

/-- Python `str.strip()`. -/
def pyStrip (s : String) : String := String.mk (pyStripList s.data)

/-- Python `int(str)`: optional surrounding whitespace, optional sign,
then a non-empty digit run (underscore digit grouping is not exercised by
any claim and is omitted). -/
def pyIntOfString (s : String) : Except String Int :=
  let t := pyStripList s.data
  let signed : Bool × List Char :=
    match t with
    | '-' :: rest => (true, rest)
    | '+' :: rest => (false, rest)
    | _ => (false, t)
  let core := signed.2
  if core.length > 0 ∧ core.all Char.isDigit then
    let m : Nat := core.foldl (fun acc c => 10 * acc + (c.toNat - 48)) 0
    .ok (if signed.1 then -(m : Int) else (m : Int))
  else .error "value is not a valid integer"

/-- pydantic-v1 `int_validator` (`int(v)`): ints pass through, bools map
to 0/1, numeric strings are parsed, `None` is rejected. -/
def pyInt : Val → Except String Int
  | .vInt n => .ok n
  | .vBool b => .ok (if b then 1 else 0)
  | .vStr s => pyIntOfString s
  | .vNone => .error "value is not a valid integer"

/-- pydantic-v1 `bool_validator`: `True`/`False` pass through; the ints
0 and 1 and the (lowercased) strings in `BOOL_TRUE`/`BOOL_FALSE` are
coerced; everything else is rejected. -/
def pyBool : Val → Except String Bool
  | .vBool b => .ok b
  | .vInt n => if n = 1 then .ok true else if n = 0 then .ok false
      else .error "value could not be parsed to a boolean"
  | .vStr s =>
      let t := String.mk (s.data.map Char.toLower)
      if t = "1" ∨ t = "on" ∨ t = "t" ∨ t = "true" ∨ t = "y" ∨ t = "yes" then .ok true
      else if t = "0" ∨ t = "off" ∨ t = "f" ∨ t = "false" ∨ t = "n" ∨ t = "no" then .ok false
      else .error "value could not be parsed to a boolean"
  | .vNone => .error "value could not be parsed to a boolean"

/-- Split a character list on a separator (Python `str.split(sep)`):
`"a@b"` gives `["a", "b"]`, with empty pieces kept. -/
def splitChar (sep : Char) : List Char → List (List Char)
  | [] => [[]]
  | c :: cs =>
      if c = sep then [] :: splitChar sep cs
      else
        match splitChar sep cs with
        | [] => [[c]]
        | g :: gs => (c :: g) :: gs

/-- Modelled from the spec: "email must be a syntactically valid email
address".  The source delegates the syntax check to pydantic's `EmailStr`
(the external email-validator package, not part of this repository); this
predicate captures the basic grammar: exactly one `@`, a non-empty local
part of ordinary address characters, and a dotted domain of non-empty
alphanumeric-or-hyphen labels. -/
def emailValid (s : String) : Bool :=
  match splitChar '@' s.data with
  | [local_, domain] =>
      decide (local_.length > 0) &&
      local_.all (fun c => c.isAlphanum || c = '.' || c = '_' || c = '%' || c = '+' || c = '-') &&
      (match splitChar '.' domain with
       | [] => false
       | [_] => false
       | labels => labels.all (fun lb =>
           decide (lb.length > 0) && lb.all (fun c => c.isAlphanum || c = '-')))
  | _ => false

/-! ## The `SurveySubmission` model

pydantic v1 validates each declared field independently (type coercion,
then the `Field(...)` constraints, then the class's `@validator`s, which
run after the constraints), aggregates one error entry per failing field
across all fields, and succeeds only when no field failed.  The
`values` dict a validator receives holds the previously declared fields
that validated successfully. -/

/-- Python's `datetime` as far as the source uses it: `datetime.now()` is
a parameter of the embedding (spec §4.2 notes the wall-clock dependence),
and `strftime('%Y%m%d%H')` reads these four components. -/
structure PyDatetime where
  year : Nat
  month : Nat
  day : Nat
  hour : Nat
deriving DecidableEq, Repr

/-- Zero-pad the decimal form of `n` to at least `k` digits. -/
def padNat (k n : Nat) : String :=
  let s := toString n
  String.mk (List.replicate (k - s.length) '0') ++ s

/-- `now.strftime('%Y%m%d%H')`: the fixed-width `YYYYMMDDHH` string. -/
def strftimeYMDH (d : PyDatetime) : String :=
  padNat 4 d.year ++ padNat 2 d.month ++ padNat 2 d.day ++ padNat 2 d.hour

/-- A validated `SurveySubmission` instance. -/
structure SurveySubmission where
  name : String
  email : String
  age : Int
  consent : Bool
  rating : Int
  comments : Option String
  user_agent : Option String
  submission_id : Option String
deriving DecidableEq, Repr

/-- The raw field values handed to `SurveySubmission(...)`; `none` is a
missing field, `some .vNone` an explicit `None`. -/
structure RawInput where
  name : Option Val
  email : Option Val
  age : Option Val
  consent : Option Val
  rating : Option Val
  comments : Option Val
  user_agent : Option Val
  submission_id : Option Val
deriving DecidableEq, Repr

/-- `name: str = Field(..., min_length=1, max_length=100)`. -/
def validateName : Option Val → Except String String
  | none => .error "field required"
  | some v =>
      match pyStr v with
      | .error m => .error m
      | .ok s =>
          if s.length < 1 then .error "ensure this value has at least 1 characters"
          else if 100 < s.length then .error "ensure this value has at most 100 characters"
          else .ok s

/-- `email: EmailStr`: string coercion then the email syntax check. -/
def validateEmail : Option Val → Except String String
  | none => .error "field required"
  | some v =>
      match pyStr v with
      | .error m => .error m
      | .ok s =>
          if emailValid s then .ok s else .error "value is not a valid email address"

/-- `age: int = Field(..., ge=13, le=120)`. -/
def validateAge : Option Val → Except String Int
  | none => .error "field required"
  | some v =>
      match pyInt v with
      | .error m => .error m
      | .ok n =>
          if n < 13 then .error "ensure this value is greater than or equal to 13"
          else if 120 < n then .error "ensure this value is less than or equal to 120"
          else .ok n

/-- `consent: bool = Field(...)` followed by the `_must_consent`
validator, which raises `consent must be true` unless the coerced value
`is True`. -/
def validateConsent : Option Val → Except String Bool
  | none => .error "field required"
  | some v =>
      match pyBool v with
      | .error m => .error m
      | .ok b => if b then .ok true else .error "consent must be true"

/-- `rating: int = Field(..., ge=1, le=5)`. -/
def validateRating : Option Val → Except String Int
  | none => .error "field required"
  | some v =>
      match pyInt v with
      | .error m => .error m
      | .ok n =>
          if n < 1 then .error "ensure this value is greater than or equal to 1"
          else if 5 < n then .error "ensure this value is less than or equal to 5"
          else .ok n

/-- The `max_length=1000` constraint of an optional string field,
followed (for `comments`) by the `_strip_comments` whitespace trim.  The
constraint belongs to the field's type validation and therefore runs on
the value BEFORE the class validator strips it. -/
def checkLen1000 (strip : Bool) (r : Except String String) : Except String (Option String) :=
  match r with
  | .error m => .error m
  | .ok s =>
      if 1000 < s.length then .error "ensure this value has at most 1000 characters"
      else .ok (some (if strip then pyStrip s else s))

/-- `comments: Optional[str] = Field(None, max_length=1000)` followed by
the `_strip_comments` validator (which returns `None` unchanged). -/
def validateComments : Option Val → Except String (Option String)
  | none => .ok none
  | some .vNone => .ok none
  | some v => checkLen1000 true (pyStr v)

/-- `user_agent: Optional[str] = Field(None, max_length=1000)`. -/
def validateUserAgent : Option Val → Except String (Option String)
  | none => .ok none
  | some .vNone => .ok none
  | some v => checkLen1000 false (pyStr v)

/-- `submission_id: Optional[str]` with the `always=True` validator
`_compute_submission_id`: a supplied non-`None` value is kept as-is
(after string coercion, which is total on this value universe); when the
value is `None`/missing, the id is derived as
`sha256(email + now.strftime('%Y%m%d%H')).hexdigest()` using the
already-validated email from `values`, or left unset when email
validation failed. -/
def validateSubmissionId (v? : Option Val) (emailVal : Option String) (now : PyDatetime) :
    Option String :=
  let supplied : Option String :=
    match v? with
    | none => none
    | some .vNone => none
    | some v => (pyStr v).toOption
  match supplied with
  | some s => some s
  | none =>
      match emailVal with
      | none => none
      | some email => some (sha256Hex (email ++ strftimeYMDH now))

/-- Tag a field's validation failure, if any, as a `(field, message)`
error entry. -/
def errsOf (field : String) : Except String α → List (String × String)
  | .error msg => [(field, msg)]
  | .ok _ => []

/-- All `(field, message)` validation errors for a raw input, one entry
per failing field, in field declaration order. -/
def collectErrors (raw : RawInput) : List (String × String) :=
  errsOf "name" (validateName raw.name) ++
  errsOf "email" (validateEmail raw.email) ++
  errsOf "age" (validateAge raw.age) ++
  errsOf "consent" (validateConsent raw.consent) ++
  errsOf "rating" (validateRating raw.rating) ++
  errsOf "comments" (validateComments raw.comments) ++
  errsOf "user_agent" (validateUserAgent raw.user_agent)

/-- The successfully validated instance, when every field validates. -/
def buildSubmission (raw : RawInput) (now : PyDatetime) : Option SurveySubmission := do
  let n ← (validateName raw.name).toOption
  let e ← (validateEmail raw.email).toOption
  let a ← (validateAge raw.age).toOption
  let c ← (validateConsent raw.consent).toOption
  let r ← (validateRating raw.rating).toOption
  let cm ← (validateComments raw.comments).toOption
  let ua ← (validateUserAgent raw.user_agent).toOption
  pure ⟨n, e, a, c, r, cm, ua,
    validateSubmissionId raw.submission_id (validateEmail raw.email).toOption now⟩

/-- `SurveySubmission(**raw)`: either the validated instance or the
aggregated list of field errors (pydantic's `ValidationError`). -/
def validateSubmission (raw : RawInput) (now : PyDatetime) :
    Except (List (String × String)) SurveySubmission :=
  match buildSubmission raw now with
  | some s => .ok s
  | none => .error (collectErrors raw)

/-! ## `hash_pii` and the `StoredSurveyRecord` model -/

/-- `hash_pii`: SHA-256 of the UTF-8 encoding of `str(value)`, as a hex
digest.  The `str(...)` conversion of the source is applied at the call
sites of this embedding (`str` on a string is the identity; on the `age`
int it is `pyStrOfInt`). -/
def hash_pii (value : String) : String := sha256Hex value

/-- A `StoredSurveyRecord` instance. -/
structure StoredSurveyRecord where
  name : String
  hashed_email : String
  hashed_age : String
  consent : Bool
  rating : Int
  comments : Option String
  user_agent : Option String
  received_at : PyDatetime
  ip : String
  submission_id : String
deriving DecidableEq, Repr

/-- The field errors `StoredSurveyRecord(...)` itself raises on the
values passed by `from_submission`: its re-declared constraints on name,
rating, comments and user_agent, and the required (non-`None`)
submission_id.  The hashed fields, `received_at` and `ip` are always
well-typed here. -/
def storedFieldErrors (s : SurveySubmission) : List (String × String) :=
  (if s.name.length < 1 then [("name", "ensure this value has at least 1 characters")]
   else if 100 < s.name.length then [("name", "ensure this value has at most 100 characters")]
   else []) ++
  (if s.rating < 1 then [("rating", "ensure this value is greater than or equal to 1")]
   else if 5 < s.rating then [("rating", "ensure this value is less than or equal to 5")]
   else []) ++
  (match s.comments with
   | some c => if 1000 < c.length then [("comments", "ensure this value has at most 1000 characters")] else []
   | none => []) ++
  (match s.user_agent with
   | some u => if 1000 < u.length then [("user_agent", "ensure this value has at most 1000 characters")] else []
   | none => []) ++
  (match s.submission_id with
   | none => [("submission_id", "none is not an allowed value")]
   | some _ => [])

/-- `StoredSurveyRecord.from_submission`: build the record from a
submission, hashing the PII fields and attaching the caller-supplied
receipt timestamp and client IP; the record's own pydantic validation can
reject the copied values. -/
def from_submission (submission : SurveySubmission) (received_at : PyDatetime) (ip : String) :
    Except (List (String × String)) StoredSurveyRecord :=
  let errs := storedFieldErrors submission
  match submission.submission_id with
  | some sid =>
      if errs.isEmpty then
        .ok ⟨submission.name, hash_pii submission.email, hash_pii (pyStrOfInt submission.age),
             submission.consent, submission.rating, submission.comments, submission.user_agent,
             received_at, ip, sid⟩
      else .error errs
  | none => .error errs

/-! ## Digest-format lemmas

Every `sha256Hex` output is 64 lowercase hex characters, for any input. -/

/-- A lowercase hexadecimal digit. -/
def isLowerHexChar (c : Char) : Bool :=
  c.isDigit || ('a' ≤ c && c ≤ 'f')

/-- The shape the spec ascribes to every PII digest: 64 characters, all
lowercase hex. -/
def IsLowerHex64 (s : String) : Prop :=
  s.length = 64 ∧ ∀ c ∈ s.data, isLowerHexChar c = true

theorem beBytes_length (k n : Nat) : (beBytes k n).length = k := by
  simp [beBytes]

theorem beBytes_lt (k n : Nat) : ∀ b ∈ beBytes k n, b < 256 := by
  intro b hb
  simp only [beBytes, List.mem_map] at hb
  obtain ⟨i, -, rfl⟩ := hb
  have : (n >>> (8 * (k - 1 - i))) &&& 255 ≤ 255 := Nat.and_le_right
  omega

theorem sha256Round_length (w st : List Nat) (i : Nat) :
    (sha256Round w st i).length = 8 := by
  simp [sha256Round]

theorem foldl_sha256Round_length (w : List Nat) (l : List Nat) (st : List Nat)
    (h : st.length = 8) : (l.foldl (sha256Round w) st).length = 8 := by
  induction l generalizing st with
  | nil => simpa
  | cons a l ih => exact ih _ (sha256Round_length w st a)

theorem sha256Compress_length (hs block : List Nat) (h : hs.length = 8) :
    (sha256Compress hs block).length = 8 := by
  simp only [sha256Compress, List.length_zipWith,
    foldl_sha256Round_length _ _ _ h, h, Nat.min_self]

theorem sha256Blocks_length (fuel : Nat) (hs ws : List Nat) (h : hs.length = 8) :
    (sha256Blocks fuel hs ws).length = 8 := by
  induction fuel generalizing hs ws with
  | zero => simpa [sha256Blocks]
  | succ n ih => exact ih _ _ (sha256Compress_length _ _ h)

theorem sha256Bytes_length (msg : List Nat) : (sha256Bytes msg).length = 32 := by
  have h8 : (sha256Blocks ((bytesToWords (sha256Pad msg)).length / 16) sha256Init
      (bytesToWords (sha256Pad msg))).length = 8 :=
    sha256Blocks_length _ _ _ (by simp [sha256Init])
  have key : ∀ l : List Nat,
      (l.foldr (fun w acc => beBytes 4 w ++ acc) []).length = 4 * l.length := by
    intro l
    induction l with
    | nil => simp
    | cons a l ih => simp [List.foldr_cons, beBytes_length, ih]; ring
  simp only [sha256Bytes]
  rw [key, h8]

theorem sha256Bytes_lt (msg : List Nat) : ∀ b ∈ sha256Bytes msg, b < 256 := by
  have key : ∀ l : List Nat, ∀ b ∈ l.foldr (fun w acc => beBytes 4 w ++ acc) [], b < 256 := by
    intro l
    induction l with
    | nil => simp
    | cons a l ih =>
        intro b hb
        simp only [List.foldr_cons, List.mem_append] at hb
        rcases hb with hb | hb
        · exact beBytes_lt 4 a b hb
        · exact ih b hb
  intro b hb
  exact key _ b hb

theorem hexChar_isLowerHex : ∀ n < 16, isLowerHexChar (hexChar n) = true := by
  decide

theorem hexOfBytes_isLowerHex64 (bs : List Nat) (hlen : bs.length = 32)
    (hlt : ∀ b ∈ bs, b < 256) : IsLowerHex64 (hexOfBytes bs) := by
  constructor
  · show (String.mk (bs.foldr (fun b acc => hexChar (b / 16) :: hexChar (b % 16) :: acc) [])).length = 64
    have key : ∀ l : List Nat,
        (l.foldr (fun b acc => hexChar (b / 16) :: hexChar (b % 16) :: acc) []).length
          = 2 * l.length := by
      intro l
      induction l with
      | nil => simp
      | cons a l ih => simp [ih]; ring
    simp [String.length, key, hlen]
  · intro c hc
    have key : ∀ l : List Nat, (∀ b ∈ l, b < 256) →
        ∀ c ∈ l.foldr (fun b acc => hexChar (b / 16) :: hexChar (b % 16) :: acc) [],
          isLowerHexChar c = true := by
      intro l hl
      induction l with
      | nil => simp
      | cons a l ih =>
          intro c hc
          simp only [List.foldr_cons, List.mem_cons] at hc
          have ha : a < 256 := hl a (List.mem_cons_self a l)
          rcases hc with rfl | rfl | hc
          · exact hexChar_isLowerHex (a / 16) (by omega)
          · exact hexChar_isLowerHex (a % 16) (by omega)
          · exact ih (fun b hb => hl b (List.mem_cons_of_mem a hb)) c hc
    exact key bs hlt c hc

/-- Every digest the embedding produces is 64 lowercase hex characters. -/
theorem sha256Hex_isLowerHex64 (s : String) : IsLowerHex64 (sha256Hex s) :=
  hexOfBytes_isLowerHex64 _ (sha256Bytes_length _) (sha256Bytes_lt _)

/-- A digest is never the empty string. -/
theorem sha256Hex_ne_empty (s : String) : sha256Hex s ≠ "" := by
  intro h
  have := (sha256Hex_isLowerHex64 s).1
  rw [h] at this
  simp [String.length] at this

/-! ## Validator inversion lemmas -/

theorem toOption_eq_some {ε α : Type} {e : Except ε α} {a : α} :
    e.toOption = some a ↔ e = .ok a := by
  cases e <;> simp [Except.toOption]

theorem length_dropWhile_le (p : α → Bool) (l : List α) :
    (l.dropWhile p).length ≤ l.length := by
  induction l with
  | nil => simp
  | cons a l ih =>
      rw [List.dropWhile_cons]
      split
      · simp; omega
      · simp

theorem pyStrip_length_le (s : String) : (pyStrip s).length ≤ s.length := by
  have h1 : (pyStripList s.data).length ≤ s.data.length := by
    calc (pyStripList s.data).length
        ≤ ((s.data.reverse.dropWhile isPyWs).reverse).length :=
          length_dropWhile_le _ _
      _ = (s.data.reverse.dropWhile isPyWs).length := by simp
      _ ≤ s.data.reverse.length := length_dropWhile_le _ _
      _ = s.data.length := by simp
  exact h1

theorem validateName_ok {x : Option Val} {n : String} (h : validateName x = .ok n) :
    1 ≤ n.length ∧ n.length ≤ 100 := by
  match x with
  | none => exact Except.noConfusion h
  | some v =>
      simp only [validateName] at h
      split at h
      · exact Except.noConfusion h
      · split at h
        · exact Except.noConfusion h
        · split at h
          · exact Except.noConfusion h
          · cases h; omega

theorem validateAge_ok {x : Option Val} {a : Int} (h : validateAge x = .ok a) :
    13 ≤ a ∧ a ≤ 120 := by
  match x with
  | none => exact Except.noConfusion h
  | some v =>
      simp only [validateAge] at h
      split at h
      · exact Except.noConfusion h
      · split at h
        · exact Except.noConfusion h
        · split at h
          · exact Except.noConfusion h
          · cases h; omega

theorem validateRating_ok {x : Option Val} {r : Int} (h : validateRating x = .ok r) :
    1 ≤ r ∧ r ≤ 5 := by
  match x with
  | none => exact Except.noConfusion h
  | some v =>
      simp only [validateRating] at h
      split at h
      · exact Except.noConfusion h
      · split at h
        · exact Except.noConfusion h
        · split at h
          · exact Except.noConfusion h
          · cases h; omega

theorem validateConsent_ok {x : Option Val} {b : Bool} (h : validateConsent x = .ok b) :
    b = true := by
  match x with
  | none => exact Except.noConfusion h
  | some v =>
      simp only [validateConsent] at h
      split at h
      · exact Except.noConfusion h
      · split at h
        · cases h; rfl
        · exact Except.noConfusion h

theorem checkLen1000_ok {strip : Bool} {r : Except String String} {c? : Option String}
    (h : checkLen1000 strip r = .ok c?) : ∀ c, c? = some c → c.length ≤ 1000 := by
  intro c hc
  simp only [checkLen1000] at h
  split at h
  · exact Except.noConfusion h
  · rename_i s
    split at h
    · exact Except.noConfusion h
    · cases h
      cases hc
      cases strip with
      | false => simp only [Bool.false_eq_true, if_false]; omega
      | true =>
          simp only [if_true]
          have := pyStrip_length_le s
          omega

theorem validateComments_ok {x : Option Val} {c? : Option String}
    (h : validateComments x = .ok c?) : ∀ c, c? = some c → c.length ≤ 1000 := by
  intro c hc
  match x with
  | none => cases h; exact Option.noConfusion hc
  | some .vNone => cases h; exact Option.noConfusion hc
  | some (.vBool b) =>
      exact checkLen1000_ok (show checkLen1000 true (pyStr (.vBool b)) = .ok c? from h) c hc
  | some (.vInt i) =>
      exact checkLen1000_ok (show checkLen1000 true (pyStr (.vInt i)) = .ok c? from h) c hc
  | some (.vStr t) =>
      exact checkLen1000_ok (show checkLen1000 true (pyStr (.vStr t)) = .ok c? from h) c hc

theorem validateComments_str {v : String} {c? : Option String}
    (h : validateComments (some (.vStr v)) = .ok c?) :
    v.length ≤ 1000 ∧ c? = some (pyStrip v) := by
  simp only [validateComments, checkLen1000, pyStr] at h
  split at h
  · exact Except.noConfusion h
  · cases h
    constructor
    · omega
    · rfl

theorem validateUserAgent_ok {x : Option Val} {u? : Option String}
    (h : validateUserAgent x = .ok u?) : ∀ u, u? = some u → u.length ≤ 1000 := by
  intro u hu
  match x with
  | none => cases h; exact Option.noConfusion hu
  | some .vNone => cases h; exact Option.noConfusion hu
  | some (.vBool b) =>
      exact checkLen1000_ok (show checkLen1000 false (pyStr (.vBool b)) = .ok u? from h) u hu
  | some (.vInt i) =>
      exact checkLen1000_ok (show checkLen1000 false (pyStr (.vInt i)) = .ok u? from h) u hu
  | some (.vStr t) =>
      exact checkLen1000_ok (show checkLen1000 false (pyStr (.vStr t)) = .ok u? from h) u hu

theorem validateSubmissionId_str (v : String) (e? : Option String) (now : PyDatetime) :
    validateSubmissionId (some (.vStr v)) e? now = some v := by
  simp [validateSubmissionId, pyStr, Except.toOption]

theorem validateSubmissionId_missing (e : String) (now : PyDatetime) :
    validateSubmissionId none (some e) now = some (sha256Hex (e ++ strftimeYMDH now)) := by
  simp [validateSubmissionId]

theorem validateSubmissionId_pyNone (e : String) (now : PyDatetime) :
    validateSubmissionId (some .vNone) (some e) now
      = some (sha256Hex (e ++ strftimeYMDH now)) := by
  simp [validateSubmissionId]

theorem validateSubmissionId_isSome (v? : Option Val) (e : String) (now : PyDatetime) :
    ∃ w, validateSubmissionId v? (some e) now = some w := by
  match v? with
  | none => exact ⟨_, validateSubmissionId_missing e now⟩
  | some .vNone => exact ⟨_, validateSubmissionId_pyNone e now⟩
  | some (.vStr v) => exact ⟨_, validateSubmissionId_str v _ now⟩
  | some (.vBool b) => cases b <;> simp [validateSubmissionId, pyStr, Except.toOption]
  | some (.vInt n) => simp [validateSubmissionId, pyStr, Except.toOption]

/-- Inverting a successful construction: every field validator succeeded
with the stored value, and the stored `submission_id` is what the
`always=True` validator produced from the validated email. -/
theorem validateSubmission_ok {raw : RawInput} {now : PyDatetime} {s : SurveySubmission}
    (h : validateSubmission raw now = .ok s) :
    validateName raw.name = .ok s.name ∧
    validateEmail raw.email = .ok s.email ∧
    validateAge raw.age = .ok s.age ∧
    validateConsent raw.consent = .ok s.consent ∧
    validateRating raw.rating = .ok s.rating ∧
    validateComments raw.comments = .ok s.comments ∧
    validateUserAgent raw.user_agent = .ok s.user_agent ∧
    s.submission_id = validateSubmissionId raw.submission_id (some s.email) now := by
  unfold validateSubmission at h
  cases hb : buildSubmission raw now with
  | none => rw [hb] at h; simp at h
  | some s' =>
      rw [hb] at h
      simp only [Except.ok.injEq] at h
      subst h
      simp only [buildSubmission, bind, Option.bind, pure] at hb
      cases h1 : (validateName raw.name).toOption with
      | none => rw [h1] at hb; simp at hb
      | some n =>
      rw [h1] at hb
      cases h2 : (validateEmail raw.email).toOption with
      | none => rw [h2] at hb; simp at hb
      | some e =>
      rw [h2] at hb
      cases h3 : (validateAge raw.age).toOption with
      | none => rw [h3] at hb; simp at hb
      | some a =>
      rw [h3] at hb
      cases h4 : (validateConsent raw.consent).toOption with
      | none => rw [h4] at hb; simp at hb
      | some c =>
      rw [h4] at hb
      cases h5 : (validateRating raw.rating).toOption with
      | none => rw [h5] at hb; simp at hb
      | some r =>
      rw [h5] at hb
      cases h6 : (validateComments raw.comments).toOption with
      | none => rw [h6] at hb; simp at hb
      | some cm =>
      rw [h6] at hb
      cases h7 : (validateUserAgent raw.user_agent).toOption with
      | none => rw [h7] at hb; simp at hb
      | some ua =>
      rw [h7] at hb
      simp only [Option.some.injEq] at hb
      subst hb
      refine ⟨toOption_eq_some.mp h1, toOption_eq_some.mp h2, toOption_eq_some.mp h3,
        toOption_eq_some.mp h4, toOption_eq_some.mp h5, toOption_eq_some.mp h6,
        toOption_eq_some.mp h7, ?_⟩
      rfl

/-! ## Stored-record helpers -/

theorem storedFieldErrors_eq_nil {s : SurveySubmission} {w : String}
    (hn : 1 ≤ s.name.length ∧ s.name.length ≤ 100)
    (hr : 1 ≤ s.rating ∧ s.rating ≤ 5)
    (hc : ∀ c, s.comments = some c → c.length ≤ 1000)
    (hu : ∀ u, s.user_agent = some u → u.length ≤ 1000)
    (hid : s.submission_id = some w) :
    storedFieldErrors s = [] := by
  have c1 : (if s.name.length < 1 then [("name", "ensure this value has at least 1 characters")]
      else if 100 < s.name.length then [("name", "ensure this value has at most 100 characters")]
      else []) = [] := by
    rw [if_neg (by omega), if_neg (by omega)]
  have c2 : (if s.rating < 1 then [("rating", "ensure this value is greater than or equal to 1")]
      else if 5 < s.rating then [("rating", "ensure this value is less than or equal to 5")]
      else []) = [] := by
    rw [if_neg (by omega), if_neg (by omega)]
  have c3 : (match s.comments with
      | some c => if 1000 < c.length then [("comments", "ensure this value has at most 1000 characters")] else []
      | none => []) = ([] : List (String × String)) := by
    cases hcm : s.comments with
    | none => rfl
    | some c =>
        have := hc c hcm
        exact if_neg (by omega)
  have c4 : (match s.user_agent with
      | some u => if 1000 < u.length then [("user_agent", "ensure this value has at most 1000 characters")] else []
      | none => []) = ([] : List (String × String)) := by
    cases hua : s.user_agent with
    | none => rfl
    | some u =>
        have := hu u hua
        exact if_neg (by omega)
  have c5 : (match s.submission_id with
      | none => [("submission_id", "none is not an allowed value")]
      | some _ => []) = ([] : List (String × String)) := by
    rw [hid]
  simp only [storedFieldErrors, c1, c2, c3, c4, c5, List.append_nil, List.nil_append]

theorem from_submission_total {s : SurveySubmission} {sid : String}
    (hnil : storedFieldErrors s = []) (hsid : s.submission_id = some sid)
    (t : PyDatetime) (ip : String) :
    from_submission s t ip = .ok ⟨s.name, hash_pii s.email, hash_pii (pyStrOfInt s.age),
      s.consent, s.rating, s.comments, s.user_agent, t, ip, sid⟩ := by
  simp [from_submission, hsid, hnil]

theorem from_submission_ok_inv {s : SurveySubmission} {t : PyDatetime} {ip : String}
    {r : StoredSurveyRecord} (h : from_submission s t ip = .ok r) :
    r.name = s.name ∧ r.hashed_email = hash_pii s.email ∧
    r.hashed_age = hash_pii (pyStrOfInt s.age) ∧ r.consent = s.consent ∧
    r.rating = s.rating ∧ r.comments = s.comments ∧ r.user_agent = s.user_agent ∧
    r.received_at = t ∧ r.ip = ip ∧ s.submission_id = some r.submission_id := by
  simp only [from_submission] at h
  cases hsid : s.submission_id with
  | none =>
      simp only [hsid] at h
      exact Except.noConfusion h
  | some sid =>
      simp only [hsid] at h
      by_cases he : (storedFieldErrors s).isEmpty = true
      · rw [if_pos he] at h
        cases h
        exact ⟨rfl, rfl, rfl, rfl, rfl, rfl, rfl, rfl, rfl, rfl⟩
      · rw [if_neg he] at h
        exact Except.noConfusion h

/-! ## Failure-path helpers -/

theorem validateSubmission_ok_of_build {raw : RawInput} {now : PyDatetime}
    {s : SurveySubmission} (hb : buildSubmission raw now = some s) :
    validateSubmission raw now = .ok s := by
  unfold validateSubmission
  rw [hb]

theorem validateSubmission_error_of_any {raw : RawInput} {now : PyDatetime}
    (h : (∃ m, validateName raw.name = .error m) ∨
         (∃ m, validateEmail raw.email = .error m) ∨
         (∃ m, validateAge raw.age = .error m) ∨
         (∃ m, validateConsent raw.consent = .error m) ∨
         (∃ m, validateRating raw.rating = .error m) ∨
         (∃ m, validateComments raw.comments = .error m) ∨
         (∃ m, validateUserAgent raw.user_agent = .error m)) :
    validateSubmission raw now = .error (collectErrors raw) := by
  cases hb : buildSubmission raw now with
  | none => unfold validateSubmission; rw [hb]
  | some s =>
      exfalso
      obtain ⟨h1, h2, h3, h4, h5, h6, h7, -⟩ :=
        validateSubmission_ok (validateSubmission_ok_of_build hb)
      rcases h with ⟨m, hm⟩ | ⟨m, hm⟩ | ⟨m, hm⟩ | ⟨m, hm⟩ | ⟨m, hm⟩ | ⟨m, hm⟩ | ⟨m, hm⟩ <;>
        simp_all

theorem mem_collectErrors_name {raw : RawInput} {m : String}
    (h : validateName raw.name = .error m) :
    "name" ∈ (collectErrors raw).map Prod.fst := by
  simp [collectErrors, errsOf, h]

theorem mem_collectErrors_email {raw : RawInput} {m : String}
    (h : validateEmail raw.email = .error m) :
    "email" ∈ (collectErrors raw).map Prod.fst := by
  simp [collectErrors, errsOf, h]

theorem mem_collectErrors_age {raw : RawInput} {m : String}
    (h : validateAge raw.age = .error m) :
    "age" ∈ (collectErrors raw).map Prod.fst := by
  simp [collectErrors, errsOf, h]

theorem mem_collectErrors_consent {raw : RawInput} {m : String}
    (h : validateConsent raw.consent = .error m) :
    "consent" ∈ (collectErrors raw).map Prod.fst := by
  simp [collectErrors, errsOf, h]

theorem mem_collectErrors_rating {raw : RawInput} {m : String}
    (h : validateRating raw.rating = .error m) :
    "rating" ∈ (collectErrors raw).map Prod.fst := by
  simp [collectErrors, errsOf, h]

theorem mem_collectErrors_comments {raw : RawInput} {m : String}
    (h : validateComments raw.comments = .error m) :
    "comments" ∈ (collectErrors raw).map Prod.fst := by
  simp [collectErrors, errsOf, h]

theorem mem_collectErrors_user_agent {raw : RawInput} {m : String}
    (h : validateUserAgent raw.user_agent = .error m) :
    "user_agent" ∈ (collectErrors raw).map Prod.fst := by
  simp [collectErrors, errsOf, h]

/-- A successfully validated submission satisfies every constraint the
stored record re-declares, and carries a present submission id. -/
theorem valid_bundle {raw : RawInput} {now : PyDatetime} {s : SurveySubmission}
    (hs : validateSubmission raw now = .ok s) :
    storedFieldErrors s = [] ∧ ∃ w, s.submission_id = some w := by
  obtain ⟨h1, h2, h3, h4, h5, h6, h7, h8⟩ := validateSubmission_ok hs
  obtain ⟨w, hw⟩ := validateSubmissionId_isSome raw.submission_id s.email now
  rw [← h8] at hw
  exact ⟨storedFieldErrors_eq_nil (validateName_ok h1) (validateRating_ok h5)
    (validateComments_ok h6) (validateUserAgent_ok h7) hw, w, hw⟩

/-! ## Claim theorems -/

/-- C1: for every valid Submission `s`, timestamp `t`, and IP string
`ip`, `from_submission` returns a record whose name, consent, rating,
comments, user_agent, and submission_id equal the corresponding fields of
`s` unchanged, whose `received_at` equals `t` and `ip` equals `ip`, and
whose `hashed_email` is the 64-character lowercase hex SHA-256 digest of
`s.email` and `hashed_age` the same digest of the decimal string of
`s.age`. -/
theorem c1_stored_record_fields {raw : RawInput} {now : PyDatetime} {s : SurveySubmission}
    (hs : validateSubmission raw now = .ok s) (t : PyDatetime) (ip : String) :
    ∃ r, from_submission s t ip = .ok r ∧
      r.name = s.name ∧ r.consent = s.consent ∧ r.rating = s.rating ∧
      r.comments = s.comments ∧ r.user_agent = s.user_agent ∧
      s.submission_id = some r.submission_id ∧
      r.received_at = t ∧ r.ip = ip ∧
      r.hashed_email = sha256Hex s.email ∧ IsLowerHex64 r.hashed_email ∧
      r.hashed_age = sha256Hex (pyStrOfInt s.age) ∧ IsLowerHex64 r.hashed_age := by
  obtain ⟨hnil, w, hw⟩ := valid_bundle hs
  refine ⟨_, from_submission_total hnil hw t ip, rfl, rfl, rfl, rfl, rfl, hw, rfl, rfl,
    rfl, sha256Hex_isLowerHex64 _, rfl, sha256Hex_isLowerHex64 _⟩

theorem c1_stored_record_fields_witness :
    validateSubmission
        ⟨some (.vStr "Jo"), some (.vStr "jo@x.com"), some (.vInt 40), some (.vBool true),
         some (.vInt 5), some (.vStr "  great  "), none, some (.vStr "id-1")⟩ ⟨2024, 3, 15, 14⟩
      = .ok ⟨"Jo", "jo@x.com", 40, true, 5, some "great", none, some "id-1"⟩ ∧
    (∃ r, from_submission ⟨"Jo", "jo@x.com", 40, true, 5, some "great", none, some "id-1"⟩
        ⟨2024, 3, 16, 9⟩ "203.0.113.7" = .ok r ∧
      r.name = "Jo" ∧ r.consent = true ∧ r.rating = 5 ∧
      r.comments = some "great" ∧ r.user_agent = none ∧
      (some "id-1" : Option String) = some r.submission_id ∧
      r.received_at = ⟨2024, 3, 16, 9⟩ ∧ r.ip = "203.0.113.7" ∧
      r.hashed_email = sha256Hex "jo@x.com" ∧ IsLowerHex64 r.hashed_email ∧
      r.hashed_age = sha256Hex (pyStrOfInt 40) ∧ IsLowerHex64 r.hashed_age) :=
  ⟨rfl,
   @c1_stored_record_fields
     ⟨some (.vStr "Jo"), some (.vStr "jo@x.com"), some (.vInt 40), some (.vBool true),
      some (.vInt 5), some (.vStr "  great  "), none, some (.vStr "id-1")⟩
     ⟨2024, 3, 15, 14⟩
     ⟨"Jo", "jo@x.com", 40, true, 5, some "great", none, some "id-1"⟩
     rfl ⟨2024, 3, 16, 9⟩ "203.0.113.7"⟩

/-- C8: stored-record derivation is total on valid submissions — for
every successfully constructed Submission and every timestamp and IP,
`from_submission` succeeds; its failure branch is unreachable under that
precondition. -/
theorem c8_from_submission_total {raw : RawInput} {now : PyDatetime} {s : SurveySubmission}
    (hs : validateSubmission raw now = .ok s) (t : PyDatetime) (ip : String) :
    ∃ r, from_submission s t ip = .ok r := by
  obtain ⟨hnil, w, hw⟩ := valid_bundle hs
  exact ⟨_, from_submission_total hnil hw t ip⟩

theorem c8_from_submission_total_witness :
    validateSubmission
        ⟨some (.vStr "Ann"), some (.vStr "ann@example.org"), some (.vInt 33), some (.vBool true),
         some (.vInt 4), none, some (.vStr "agent/1.0"), some (.vStr "id-8")⟩ ⟨2025, 1, 2, 3⟩
      = .ok ⟨"Ann", "ann@example.org", 33, true, 4, none, some "agent/1.0", some "id-8"⟩ ∧
    (∃ r, from_submission ⟨"Ann", "ann@example.org", 33, true, 4, none, some "agent/1.0", some "id-8"⟩
        ⟨2025, 1, 2, 4⟩ "198.51.100.9" = .ok r) :=
  ⟨rfl,
   @c8_from_submission_total
     ⟨some (.vStr "Ann"), some (.vStr "ann@example.org"), some (.vInt 33), some (.vBool true),
      some (.vInt 4), none, some (.vStr "agent/1.0"), some (.vStr "id-8")⟩
     ⟨2025, 1, 2, 3⟩
     ⟨"Ann", "ann@example.org", 33, true, 4, none, some "agent/1.0", some "id-8"⟩
     rfl ⟨2025, 1, 2, 4⟩ "198.51.100.9"⟩

/-- C2, counterexample: a caller-supplied empty-string `submission_id`
is kept as-is, so a successfully constructed Submission can carry an
empty submission_id, contradicting the claim that every successful
construction (including caller-supplied ids) has a non-empty one. -/
theorem c2_counterexample_empty_id :
    validateSubmission
        ⟨some (.vStr "Jo"), some (.vStr "jo@x.com"), some (.vInt 40), some (.vBool true),
         some (.vInt 5), none, none, some (.vStr "")⟩ ⟨2024, 3, 15, 14⟩
      = .ok ⟨"Jo", "jo@x.com", 40, true, 5, none, none, some ""⟩ ∧
    (⟨"Jo", "jo@x.com", 40, true, 5, none, none, some ""⟩ : SurveySubmission).submission_id
      = some "" :=
  ⟨rfl, rfl⟩

/-- C2, amended: every successfully constructed Submission has
`consent = true` and a present (non-`None`) submission_id; the id is
moreover non-empty whenever it was not caller-supplied (derived ids are
64-character digests), while a caller-supplied value is kept as-is even
when empty. -/
theorem c2_consent_and_submission_id {raw : RawInput} {now : PyDatetime} {s : SurveySubmission}
    (hs : validateSubmission raw now = .ok s) :
    s.consent = true ∧ ∃ v, s.submission_id = some v ∧
      ((raw.submission_id = none ∨ raw.submission_id = some .vNone) → v ≠ "") := by
  obtain ⟨h1, h2, h3, h4, h5, h6, h7, h8⟩ := validateSubmission_ok hs
  refine ⟨validateConsent_ok h4, ?_⟩
  obtain ⟨w, hw⟩ := validateSubmissionId_isSome raw.submission_id s.email now
  refine ⟨w, by rw [h8, hw], ?_⟩
  rintro (hid | hid)
  · rw [hid, validateSubmissionId_missing] at hw
    cases hw
    exact sha256Hex_ne_empty _
  · rw [hid, validateSubmissionId_pyNone] at hw
    cases hw
    exact sha256Hex_ne_empty _

theorem c2_consent_and_submission_id_witness :
    ∃ s, validateSubmission
        ⟨some (.vStr "Jo"), some (.vStr "jo@x.com"), some (.vInt 40), some (.vBool true),
         some (.vInt 5), none, none, none⟩ ⟨2024, 3, 15, 14⟩ = .ok s ∧
      (s.consent = true ∧ ∃ v, s.submission_id = some v ∧
        ((RawInput.submission_id ⟨some (.vStr "Jo"), some (.vStr "jo@x.com"), some (.vInt 40),
            some (.vBool true), some (.vInt 5), none, none, none⟩ = none ∨
          RawInput.submission_id ⟨some (.vStr "Jo"), some (.vStr "jo@x.com"), some (.vInt 40),
            some (.vBool true), some (.vInt 5), none, none, none⟩ = some .vNone) → v ≠ "")) :=
  ⟨_, rfl,
   @c2_consent_and_submission_id
     ⟨some (.vStr "Jo"), some (.vStr "jo@x.com"), some (.vInt 40), some (.vBool true),
      some (.vInt 5), none, none, none⟩
     ⟨2024, 3, 15, 14⟩ _ rfl⟩

/-- C3, counterexample: the integer `1` — a truthy non-boolean — is
coerced to `True` by the bool validator, so construction succeeds instead
of failing with a consent error as the claim requires. -/
theorem c3_counterexample_int_one :
    validateSubmission
        ⟨some (.vStr "Jo"), some (.vStr "jo@x.com"), some (.vInt 40), some (.vInt 1),
         some (.vInt 5), none, none, some (.vStr "id-3")⟩ ⟨2024, 3, 15, 14⟩
      = .ok ⟨"Jo", "jo@x.com", 40, true, 5, none, none, some "id-3"⟩ :=
  rfl

/-- C3, amended: construction fails with an error entry for `consent`
whenever the consent field is missing, or its value is not coercible to
boolean `true` (this covers `false`, `None`, and non-coercible values
such as the string `"maybe"` or the integer `2`); values that pydantic's
bool coercion maps to `True` — such as the integer `1` or the string
`"true"` — are accepted. -/
theorem c3_consent_errors {raw : RawInput} {now : PyDatetime}
    (h : ∀ v, raw.consent = some v → pyBool v ≠ .ok true) :
    ∃ errs, validateSubmission raw now = .error errs ∧ "consent" ∈ errs.map Prod.fst := by
  have hc : ∃ m, validateConsent raw.consent = .error m := by
    cases hv : raw.consent with
    | none => exact ⟨_, rfl⟩
    | some v =>
        have hne := h v hv
        cases hp : pyBool v with
        | error m => exact ⟨m, by simp [validateConsent, hp]⟩
        | ok b =>
            cases b with
            | true => exact absurd hp hne
            | false => exact ⟨"consent must be true", by simp [validateConsent, hp]⟩
  obtain ⟨m, hm⟩ := hc
  exact ⟨collectErrors raw,
    validateSubmission_error_of_any (Or.inr (Or.inr (Or.inr (Or.inl ⟨m, hm⟩)))),
    mem_collectErrors_consent hm⟩

theorem c3_consent_errors_witness :
    ∃ errs, validateSubmission
        ⟨some (.vStr "Jo"), some (.vStr "jo@x.com"), some (.vInt 40), some (.vStr "maybe"),
         some (.vInt 5), none, none, some (.vStr "id-3b")⟩ ⟨2024, 3, 15, 14⟩
      = .error errs ∧ "consent" ∈ errs.map Prod.fst :=
  c3_consent_errors (fun v hv => by cases hv; exact fun hcon => Except.noConfusion hcon)

set_option maxRecDepth 40000 in
/-- C5, counterexample: a comments value of 1001 characters whose
trimmed form has exactly 1000 characters is rejected with a comments
error — the `max_length` constraint runs on the raw value, before the
strip, so the claim that the bound applies to the trimmed value fails. -/
theorem c5_counterexample_pretrim_length :
    (∃ errs, validateSubmission
        ⟨some (.vStr "Jo"), some (.vStr "jo@x.com"), some (.vInt 40), some (.vBool true),
         some (.vInt 5), some (.vStr (String.mk (List.replicate 1000 'a' ++ [' ']))), none,
         some (.vStr "id-5")⟩ ⟨2024, 3, 15, 14⟩ = .error errs ∧
      "comments" ∈ errs.map Prod.fst) ∧
    (pyStrip (String.mk (List.replicate 1000 'a' ++ [' ']))).length ≤ 1000 :=
  ⟨⟨_, rfl, by decide⟩, by decide⟩

/-- C5, amended: comments are trimmed of surrounding whitespace (the
stored value is the Python `strip()` of the raw value, so it never has
leading or trailing whitespace, e.g. `"  great  "` validates to
`"great"`), but the ≤1000-character constraint is applied to the raw,
pre-trim value: inputs longer than 1000 characters are rejected with a
comments entry even when their trimmed form is within the bound. -/
theorem c5_comments_trim_and_length :
    (∀ (raw : RawInput) (now : PyDatetime) (s : SurveySubmission) (v : String),
        raw.comments = some (.vStr v) → validateSubmission raw now = .ok s →
        v.length ≤ 1000 ∧ s.comments = some (pyStrip v)) ∧
    (∀ (raw : RawInput) (now : PyDatetime) (v : String),
        raw.comments = some (.vStr v) → 1000 < v.length →
        ∃ errs, validateSubmission raw now = .error errs ∧
          "comments" ∈ errs.map Prod.fst) := by
  constructor
  · intro raw now s v hv hs
    obtain ⟨-, -, -, -, -, h6, -, -⟩ := validateSubmission_ok hs
    rw [hv] at h6
    exact validateComments_str h6
  · intro raw now v hv hlen
    have hm : validateComments raw.comments
        = .error "ensure this value has at most 1000 characters" := by
      rw [hv]
      simp [validateComments, checkLen1000, pyStr, hlen]
    exact ⟨_,
      validateSubmission_error_of_any
        (Or.inr (Or.inr (Or.inr (Or.inr (Or.inr (Or.inl ⟨_, hm⟩)))))),
      mem_collectErrors_comments hm⟩

set_option maxRecDepth 40000 in
theorem c5_comments_trim_and_length_witness :
    (("  great  " : String).length ≤ 1000 ∧
      (⟨"Jo", "jo@x.com", 40, true, 5, some "great", none, some "id-1"⟩
        : SurveySubmission).comments = some (pyStrip "  great  ") ∧
      pyStrip "  great  " = "great") ∧
    (∃ errs, validateSubmission
        ⟨some (.vStr "Jo"), some (.vStr "jo@x.com"), some (.vInt 40), some (.vBool true),
         some (.vInt 5), some (.vStr (String.mk (List.replicate 1000 'b' ++ [' ', ' ']))), none,
         some (.vStr "id-5b")⟩ ⟨2024, 3, 15, 14⟩ = .error errs ∧
      "comments" ∈ errs.map Prod.fst) :=
  ⟨by
    obtain ⟨h1, h2⟩ := c5_comments_trim_and_length.1
      ⟨some (.vStr "Jo"), some (.vStr "jo@x.com"), some (.vInt 40), some (.vBool true),
       some (.vInt 5), some (.vStr "  great  "), none, some (.vStr "id-1")⟩
      ⟨2024, 3, 15, 14⟩
      ⟨"Jo", "jo@x.com", 40, true, 5, some "great", none, some "id-1"⟩
      "  great  " rfl rfl
    exact ⟨h1, h2, rfl⟩,
   c5_comments_trim_and_length.2
     ⟨some (.vStr "Jo"), some (.vStr "jo@x.com"), some (.vInt 40), some (.vBool true),
      some (.vInt 5), some (.vStr (String.mk (List.replicate 1000 'b' ++ [' ', ' ']))), none,
      some (.vStr "id-5b")⟩ ⟨2024, 3, 15, 14⟩
     (String.mk (List.replicate 1000 'b' ++ [' ', ' '])) rfl (by decide)⟩

/-! ## C6: per-field violations -/

/-- The name constraint is violated: present as a string, but empty or
longer than 100 characters. -/
def nameViolated (v? : Option Val) : Prop :=
  ∃ n, v? = some (.vStr n) ∧ (n = "" ∨ 100 < n.length)

/-- The email constraint is violated: present as a string that is not a
syntactically valid email address. -/
def emailViolated (v? : Option Val) : Prop :=
  ∃ e, v? = some (.vStr e) ∧ emailValid e = false

/-- The age constraint is violated: present as an int outside [13, 120]. -/
def ageViolated (v? : Option Val) : Prop :=
  ∃ a : Int, v? = some (.vInt a) ∧ (a < 13 ∨ 120 < a)

/-- The rating constraint is violated: present as an int outside [1, 5]. -/
def ratingViolated (v? : Option Val) : Prop :=
  ∃ r : Int, v? = some (.vInt r) ∧ (r < 1 ∨ 5 < r)

/-- The comments constraint is violated: present as a string longer than
1000 characters. -/
def commentsViolated (v? : Option Val) : Prop :=
  ∃ c, v? = some (.vStr c) ∧ 1000 < c.length

/-- The user_agent constraint is violated: present as a string longer
than 1000 characters. -/
def userAgentViolated (v? : Option Val) : Prop :=
  ∃ u, v? = some (.vStr u) ∧ 1000 < u.length

theorem validateName_error_of_violated {v? : Option Val} (h : nameViolated v?) :
    ∃ m, validateName v? = .error m := by
  obtain ⟨n, rfl, hn⟩ := h
  rcases hn with rfl | hn
  · exact ⟨_, rfl⟩
  · refine ⟨"ensure this value has at most 100 characters", ?_⟩
    simp only [validateName, pyStr]
    rw [if_neg (by omega), if_pos hn]

theorem validateEmail_error_of_violated {v? : Option Val} (h : emailViolated v?) :
    ∃ m, validateEmail v? = .error m := by
  obtain ⟨e, rfl, he⟩ := h
  refine ⟨"value is not a valid email address", ?_⟩
  simp only [validateEmail, pyStr]
  rw [if_neg (by simp [he])]

theorem validateAge_error_of_violated {v? : Option Val} (h : ageViolated v?) :
    ∃ m, validateAge v? = .error m := by
  obtain ⟨a, rfl, ha⟩ := h
  rcases ha with ha | ha
  · refine ⟨"ensure this value is greater than or equal to 13", ?_⟩
    simp only [validateAge, pyInt]
    rw [if_pos ha]
  · refine ⟨"ensure this value is less than or equal to 120", ?_⟩
    simp only [validateAge, pyInt]
    rw [if_neg (by omega), if_pos ha]

theorem validateRating_error_of_violated {v? : Option Val} (h : ratingViolated v?) :
    ∃ m, validateRating v? = .error m := by
  obtain ⟨r, rfl, hr⟩ := h
  rcases hr with hr | hr
  · refine ⟨"ensure this value is greater than or equal to 1", ?_⟩
    simp only [validateRating, pyInt]
    rw [if_pos hr]
  · refine ⟨"ensure this value is less than or equal to 5", ?_⟩
    simp only [validateRating, pyInt]
    rw [if_neg (by omega), if_pos hr]

theorem validateComments_error_of_violated {v? : Option Val} (h : commentsViolated v?) :
    ∃ m, validateComments v? = .error m := by
  obtain ⟨c, rfl, hc⟩ := h
  refine ⟨"ensure this value has at most 1000 characters", ?_⟩
  simp only [validateComments, checkLen1000, pyStr]
  rw [if_pos hc]

theorem validateUserAgent_error_of_violated {v? : Option Val} (h : userAgentViolated v?) :
    ∃ m, validateUserAgent v? = .error m := by
  obtain ⟨u, rfl, hu⟩ := h
  refine ⟨"ensure this value has at most 1000 characters", ?_⟩
  simp only [validateUserAgent, checkLen1000, pyStr]
  rw [if_pos hu]

/-- C6: for every raw input violating one or more field constraints
(name empty or longer than 100, email syntactically invalid, age outside
[13, 120], rating outside [1, 5], comments or user_agent longer than
1000), construction fails with a validation error list containing an
entry naming each violated field — simultaneous violations all appear in
the one list. -/
theorem c6_field_violations {raw : RawInput} {now : PyDatetime}
    (h : nameViolated raw.name ∨ emailViolated raw.email ∨ ageViolated raw.age ∨
         ratingViolated raw.rating ∨ commentsViolated raw.comments ∨
         userAgentViolated raw.user_agent) :
    ∃ errs, validateSubmission raw now = .error errs ∧
      (nameViolated raw.name → "name" ∈ errs.map Prod.fst) ∧
      (emailViolated raw.email → "email" ∈ errs.map Prod.fst) ∧
      (ageViolated raw.age → "age" ∈ errs.map Prod.fst) ∧
      (ratingViolated raw.rating → "rating" ∈ errs.map Prod.fst) ∧
      (commentsViolated raw.comments → "comments" ∈ errs.map Prod.fst) ∧
      (userAgentViolated raw.user_agent → "user_agent" ∈ errs.map Prod.fst) := by
  refine ⟨collectErrors raw, ?_, ?_, ?_, ?_, ?_, ?_, ?_⟩
  · apply validateSubmission_error_of_any
    rcases h with h | h | h | h | h | h
    · exact Or.inl (validateName_error_of_violated h)
    · exact Or.inr (Or.inl (validateEmail_error_of_violated h))
    · exact Or.inr (Or.inr (Or.inl (validateAge_error_of_violated h)))
    · exact Or.inr (Or.inr (Or.inr (Or.inr (Or.inl (validateRating_error_of_violated h)))))
    · exact Or.inr (Or.inr (Or.inr (Or.inr (Or.inr (Or.inl
        (validateComments_error_of_violated h))))))
    · exact Or.inr (Or.inr (Or.inr (Or.inr (Or.inr (Or.inr
        (validateUserAgent_error_of_violated h))))))
  · intro hv
    obtain ⟨m, hm⟩ := validateName_error_of_violated hv
    exact mem_collectErrors_name hm
  · intro hv
    obtain ⟨m, hm⟩ := validateEmail_error_of_violated hv
    exact mem_collectErrors_email hm
  · intro hv
    obtain ⟨m, hm⟩ := validateAge_error_of_violated hv
    exact mem_collectErrors_age hm
  · intro hv
    obtain ⟨m, hm⟩ := validateRating_error_of_violated hv
    exact mem_collectErrors_rating hm
  · intro hv
    obtain ⟨m, hm⟩ := validateComments_error_of_violated hv
    exact mem_collectErrors_comments hm
  · intro hv
    obtain ⟨m, hm⟩ := validateUserAgent_error_of_violated hv
    exact mem_collectErrors_user_agent hm

theorem c6_field_violations_witness :
    (nameViolated (some (.vStr "")) ∧ ageViolated (some (.vInt 200))) ∧
    (∃ errs, validateSubmission
        ⟨some (.vStr ""), some (.vStr "jo@x.com"), some (.vInt 200), some (.vBool true),
         some (.vInt 5), none, none, some (.vStr "id-6")⟩ ⟨2024, 3, 15, 14⟩ = .error errs ∧
      "name" ∈ errs.map Prod.fst ∧ "age" ∈ errs.map Prod.fst) := by
  have hname : nameViolated (some (.vStr "")) := ⟨"", rfl, Or.inl rfl⟩
  have hage : ageViolated (some (.vInt 200)) := ⟨200, rfl, Or.inr (by norm_num)⟩
  obtain ⟨errs, he, hn, -, ha, -, -, -⟩ :=
    @c6_field_violations
      ⟨some (.vStr ""), some (.vStr "jo@x.com"), some (.vInt 200), some (.vBool true),
       some (.vInt 5), none, none, some (.vStr "id-6")⟩ ⟨2024, 3, 15, 14⟩
      (Or.inl hname)
  exact ⟨⟨hname, hage⟩, errs, he, hn hname, ha hage⟩

/-- C7: a caller-supplied non-null submission_id is kept exactly as
supplied — no re-derivation, no shape validation — and the derivation
from email and clock hour happens only when the supplied value is null
or absent. -/
theorem c7_submission_id_passthrough :
    (∀ (raw : RawInput) (now : PyDatetime) (s : SurveySubmission) (v : String),
        raw.submission_id = some (.vStr v) → validateSubmission raw now = .ok s →
        s.submission_id = some v) ∧
    (∀ (raw : RawInput) (now : PyDatetime) (s : SurveySubmission),
        raw.submission_id = none ∨ raw.submission_id = some .vNone →
        validateSubmission raw now = .ok s →
        s.submission_id = some (sha256Hex (s.email ++ strftimeYMDH now))) := by
  constructor
  · intro raw now s v hv hs
    obtain ⟨-, -, -, -, -, -, -, h8⟩ := validateSubmission_ok hs
    rw [h8, hv, validateSubmissionId_str]
  · intro raw now s hid hs
    obtain ⟨-, -, -, -, -, -, -, h8⟩ := validateSubmission_ok hs
    rcases hid with hid | hid
    · rw [h8, hid, validateSubmissionId_missing]
    · rw [h8, hid, validateSubmissionId_pyNone]

theorem c7_submission_id_passthrough_witness :
    (∃ s, validateSubmission
        ⟨some (.vStr "Bea"), some (.vStr "bea@mail.net"), some (.vInt 22), some (.vBool true),
         some (.vInt 3), none, none, some (.vStr "supplied-id")⟩ ⟨2024, 7, 1, 8⟩ = .ok s ∧
      s.submission_id = some "supplied-id") ∧
    (∃ s, validateSubmission
        ⟨some (.vStr "Bea"), some (.vStr "bea@mail.net"), some (.vInt 22), some (.vBool true),
         some (.vInt 3), none, none, none⟩ ⟨2024, 7, 1, 8⟩ = .ok s ∧
      s.submission_id = some (sha256Hex (s.email ++ strftimeYMDH ⟨2024, 7, 1, 8⟩))) :=
  ⟨⟨_, rfl,
    c7_submission_id_passthrough.1
      ⟨some (.vStr "Bea"), some (.vStr "bea@mail.net"), some (.vInt 22), some (.vBool true),
       some (.vInt 3), none, none, some (.vStr "supplied-id")⟩ ⟨2024, 7, 1, 8⟩
      _ "supplied-id" rfl rfl⟩,
   ⟨_, rfl,
    c7_submission_id_passthrough.2
      ⟨some (.vStr "Bea"), some (.vStr "bea@mail.net"), some (.vInt 22), some (.vBool true),
       some (.vInt 3), none, none, none⟩ ⟨2024, 7, 1, 8⟩
      _ (Or.inl rfl) rfl⟩⟩

/-! ## C10: whitespace-only comments -/

theorem pyStrip_eq_empty_of_all_ws {v : String} (h : v.data.all isPyWs = true) :
    pyStrip v = "" := by
  have h1 : v.data.reverse.dropWhile isPyWs = [] :=
    List.dropWhile_eq_nil_iff.mpr
      (fun x hx => List.all_eq_true.mp h x (List.mem_reverse.mp hx))
  simp [pyStrip, pyStripList, h1]

/-- C10: a comments value consisting only of whitespace (in an otherwise
valid raw input) is accepted, stored as the empty string `""` — not
`None` — and `from_submission` copies that empty string into the stored
record. -/
theorem c10_whitespace_comments {raw : RawInput} {now : PyDatetime} {v : String}
    (hv : raw.comments = some (.vStr v)) (hws : v.data.all isPyWs = true)
    (hlen : v.length ≤ 1000)
    (hn : ∃ n, validateName raw.name = .ok n)
    (he : ∃ e, validateEmail raw.email = .ok e)
    (ha : ∃ a, validateAge raw.age = .ok a)
    (hc : ∃ b, validateConsent raw.consent = .ok b)
    (hr : ∃ r, validateRating raw.rating = .ok r)
    (hu : ∃ u, validateUserAgent raw.user_agent = .ok u) :
    ∃ s, validateSubmission raw now = .ok s ∧ s.comments = some "" ∧
      ∀ t ip r, from_submission s t ip = .ok r → r.comments = some "" := by
  obtain ⟨n, hn⟩ := hn
  obtain ⟨e, he⟩ := he
  obtain ⟨a, ha⟩ := ha
  obtain ⟨b, hc⟩ := hc
  obtain ⟨r0, hr⟩ := hr
  obtain ⟨u, hu⟩ := hu
  have hcm : validateComments raw.comments = .ok (some "") := by
    rw [hv]
    have hstrip : pyStrip v = "" := pyStrip_eq_empty_of_all_ws hws
    simp only [validateComments, checkLen1000, pyStr]
    rw [if_neg (by omega)]
    simp [hstrip]
  refine ⟨⟨n, e, a, b, r0, some "", u,
    validateSubmissionId raw.submission_id (some e) now⟩, ?_, rfl, ?_⟩
  · apply validateSubmission_ok_of_build
    simp [buildSubmission, hn, he, ha, hc, hr, hcm, hu, Except.toOption]
  · intro t ip r hfr
    obtain ⟨-, -, -, -, -, hcom, -, -, -, -⟩ := from_submission_ok_inv hfr
    exact hcom

theorem c10_whitespace_comments_witness :
    ∃ s, validateSubmission
        ⟨some (.vStr "Jo"), some (.vStr "jo@x.com"), some (.vInt 40), some (.vBool true),
         some (.vInt 5), some (.vStr "   "), none, some (.vStr "id-10")⟩ ⟨2024, 3, 15, 14⟩
      = .ok s ∧ s.comments = some "" ∧
      ∀ t ip r, from_submission s t ip = .ok r → r.comments = some "" :=
  @c10_whitespace_comments
    ⟨some (.vStr "Jo"), some (.vStr "jo@x.com"), some (.vInt 40), some (.vBool true),
     some (.vInt 5), some (.vStr "   "), none, some (.vStr "id-10")⟩
    ⟨2024, 3, 15, 14⟩ "   " rfl (by decide) (by decide)
    ⟨_, rfl⟩ ⟨_, rfl⟩ ⟨_, rfl⟩ ⟨_, rfl⟩ ⟨_, rfl⟩ ⟨_, rfl⟩

end Case4
